import Mathlib

/-!
Verification development for the async-recorder webhook reconciliation core.

The embedding below follows the JavaScript sources of the repository:

* `frontend/server/database.js` — the Persisted Store (`createRecording`,
  `updateRecording`, `findRecordingBySessionId`, `findRecordingByVideoId`,
  `getRecordingById`, `getRecordings`, `getLatestUser`);
* the Express server module (`createServer`'s `POST /api/webhook` handler and
  `processIndexingBackground`), quoted in the repository's contributor
  documentation;
* the insights-service module (`indexVideo`), likewise quoted there.

SQLite rows are modelled as Lean structures with `Option` for nullable
columns; SQL `NULL` is `none`.  The `datetime('now')` creation timestamp is
modelled as a `Nat` clock value (the TEXT timestamps compare lexicographically,
which agrees with chronological/numeric comparison).  JavaScript `undefined`
(an absent key) is `none`; JavaScript string truthiness (`""` is falsy) is
made explicit wherever the source relies on it.  External services are
modelled by oracle structures recording the outcome of each call, and
exceptions by `Except`, with `try`/`catch` rendered as an explicit `match`
on the `Except` value.
-/

namespace AsyncRecorder

/-- JavaScript truthiness for an optional string value: absent (`undefined`
or `null`) and the empty string are falsy. -/
def isTruthy : Option String → Bool
  | some s => !s.data.isEmpty
  | none => false

/-- Coercion `x || null` applied by `createRecording` to string-valued
columns: falsy values (absent or empty string) are stored as SQL `NULL`. -/
def orNullStr : Option String → Option String
  | some s => if s = "" then none else some s
  | none => none

/-- Coercion `x || null` applied by `createRecording` to the integer
`duration` column: `0` is falsy in JavaScript and is stored as `NULL`. -/
def orNullInt : Option Int → Option Int
  | some n => if n = 0 then none else some n
  | none => none

/-- Row of the `users` table (`database.js`). -/
structure User where
  id : Nat
  name : Option String
  api_key : Option String
  access_token : Option String
deriving DecidableEq, Repr

/-- Row of the `recordings` table (`database.js`).  `insights_status` has a
SQL default of `'pending'` and every code path writes a string to it, so it
is modelled as `String`. -/
structure Recording where
  id : Nat
  video_id : Option String
  stream_url : Option String
  player_url : Option String
  session_id : Option String
  duration : Option Int
  created_at : Nat
  insights : Option String
  insights_status : String
deriving DecidableEq, Repr

/-- The in-memory database: both tables, the next `AUTOINCREMENT` rowid for
`recordings`, and the current clock value used for `datetime('now')`. -/
structure Store where
  users : List User
  rows : List Recording
  nextId : Nat
  now : Nat
deriving DecidableEq, Repr

/-- A fresh database, as created by `initDatabase` (SQLite rowids start
at 1). -/
def emptyStore : Store := { users := [], rows := [], nextId := 1, now := 0 }

/-- Argument object of `createRecording` in `database.js`; every key may be
absent. -/
structure RecordingInput where
  video_id : Option String := none
  stream_url : Option String := none
  player_url : Option String := none
  session_id : Option String := none
  duration : Option Int := none
  insights : Option String := none
  insights_status : Option String := none
deriving DecidableEq, Repr

/-- Update map passed to `updateRecording`.  The JavaScript function walks
`Object.entries(data)` and skips `undefined` values, so `none` means "key
absent, leave the column untouched".  Only the five columns that the
webhook handler and the indexing pipeline actually update appear in any
call site. -/
structure UpdateMap where
  video_id : Option String := none
  stream_url : Option String := none
  player_url : Option String := none
  insights : Option String := none
  insights_status : Option String := none
deriving DecidableEq, Repr

/-- The update map with no keys, for the `fields.length === 0` early
return in `updateRecording`. -/
def emptyUpdate : UpdateMap := {}

/-- Application of one `updateRecording` map to one row: present keys
overwrite the column, absent keys leave it unchanged.  `id`, `session_id`,
`duration` and `created_at` are never mentioned by any caller and are
untouched. -/
def applyUpdate (r : Recording) (u : UpdateMap) : Recording :=
  { r with
    video_id := match u.video_id with
      | some v => some v
      | none => r.video_id
    stream_url := match u.stream_url with
      | some v => some v
      | none => r.stream_url
    player_url := match u.player_url with
      | some v => some v
      | none => r.player_url
    insights := match u.insights with
      | some v => some v
      | none => r.insights
    insights_status := match u.insights_status with
      | some v => v
      | none => r.insights_status }

/-- Embedding of `createRecording(data)`: inserts one row with the falsy
coercions of the source (`data.x || null`, `data.insights_status ||
'pending'`), assigns the next rowid and the current timestamp, and returns
the inserted row.  (The JavaScript function returns `{id, ...data}`; its
callers re-read the row by video id before using it, so the model returns
the stored row.) -/
def createRecording (st : Store) (d : RecordingInput) : Store × Recording :=
  let r : Recording :=
    { id := st.nextId
      video_id := orNullStr d.video_id
      stream_url := orNullStr d.stream_url
      player_url := orNullStr d.player_url
      session_id := orNullStr d.session_id
      duration := orNullInt d.duration
      created_at := st.now
      insights := orNullStr d.insights
      insights_status := match d.insights_status with
        | some s => if s = "" then "pending" else s
        | none => "pending" }
  ({ st with rows := st.rows ++ [r], nextId := st.nextId + 1 }, r)

/-- Embedding of `updateRecording(id, data)`: with no defined keys the
function returns early; otherwise a single SQL `UPDATE ... WHERE id = ?`
rewrites every row carrying that id. -/
def updateRecording (st : Store) (id : Nat) (u : UpdateMap) : Store :=
  if u = emptyUpdate then st
  else { st with rows := st.rows.map fun r => if r.id = id then applyUpdate r u else r }

/-- Embedding of `findRecordingBySessionId`: `SELECT * FROM recordings
WHERE session_id = ?` returning the first row.  Binding a JavaScript
`undefined`/`null` session id compares `session_id = NULL`, which no row
satisfies, and a stored `NULL` never equals a bound string. -/
def findRecordingBySessionId (st : Store) (s : Option String) : Option Recording :=
  match s with
  | none => none
  | some v => st.rows.find? fun r => r.session_id == some v

/-- Embedding of `findRecordingByVideoId` (only ever called with a truthy
video id). -/
def findRecordingByVideoId (st : Store) (v : String) : Option Recording :=
  st.rows.find? fun r => r.video_id == some v

/-- Embedding of `getRecordingById`. -/
def getRecordingById (st : Store) (id : Nat) : Option Recording :=
  st.rows.find? fun r => r.id == id

/-- Ordering used by the history listing: row `a` comes before row `b`
when `a` was created no earlier than `b` (`ORDER BY created_at DESC`). -/
def newestFirst (a b : Recording) : Prop := b.created_at ≤ a.created_at

instance : DecidableRel newestFirst := fun a b => Nat.decLe b.created_at a.created_at

instance : IsTotal Recording newestFirst :=
  ⟨fun a b => Nat.le_total b.created_at a.created_at⟩

instance : IsTrans Recording newestFirst :=
  ⟨fun _ _ _ h1 h2 => Nat.le_trans h2 h1⟩

/-- Embedding of `getRecordings(limit)`: `SELECT * FROM recordings ORDER BY
created_at DESC LIMIT ?`.  SQLite leaves the relative order of equal
timestamps unspecified; the model fixes one order consistent with the
`ORDER BY`. -/
def getRecordings (st : Store) (limit : Nat) : List Recording :=
  (List.insertionSort newestFirst st.rows).take limit

/-- Embedding of `getLatestUser`: `SELECT * FROM users ORDER BY id DESC
LIMIT 1`, i.e. the row with the greatest id. -/
def getLatestUser (st : Store) : Option User :=
  st.users.foldl
    (fun acc u => match acc with
      | none => some u
      | some a => if a.id < u.id then some u else some a)
    none

/-! ### The player-URL rewrite

`processIndexingBackground` rewrites the stored player URL with
`recording.player_url.replace(/url=[^&]+/, 'url=' + subtitleUrl)`, guarded
by `recording.player_url.includes('url=')`.  The regex matches the first
occurrence of the literal `url=` followed by a maximal non-empty run of
characters other than `&`.  The functions below implement exactly that on
character lists.  (Dollar escape sequences in a JavaScript replacement
string are not modelled; no claim involves a subtitle URL containing `$`,
and the theorems that use the rewrite carry that restriction as an
explicit hypothesis.) -/

/-- Does the list begin with the four characters `url=`?  Used for the
`includes('url=')` guard. -/
def startsWithUrlKey (l : List Char) : Bool :=
  match l with
  | a :: b :: c :: d :: _ => a == 'u' && b == 'r' && c == 'l' && d == '='
  | _ => false

/-- Occurrence of the substring `url=` anywhere in the list: embedding of
`String.prototype.includes('url=')`. -/
def charsHasUrlKey : List Char → Bool
  | [] => false
  | c :: cs => startsWithUrlKey (c :: cs) || charsHasUrlKey cs

/-- Can the regex `url=[^&]+` match at the head of the list?  It needs the
literal `url=` and then at least one character other than `&`. -/
def urlMatchAt (l : List Char) : Bool :=
  match l with
  | a :: b :: c :: d :: e :: _ => a == 'u' && b == 'r' && c == 'l' && d == '=' && e != '&'
  | _ => false

/-- First-match replacement for `replace(/url=[^&]+/, 'url=' + su)`: scan
for the leftmost position where the regex can match, replace the matched
span (greedy `[^&]+`) with `url=` followed by `su`, and leave the rest of
the list untouched.  If the regex matches nowhere the list is returned
unchanged, exactly as in JavaScript. -/
def charsReplaceUrlParam (su : List Char) : List Char → List Char
  | [] => []
  | c :: cs =>
    if urlMatchAt (c :: cs) then
      'u' :: 'r' :: 'l' :: '=' :: (su ++ ((c :: cs).drop 4).dropWhile fun d => d != '&')
    else c :: charsReplaceUrlParam su cs

/-- String-level wrapper: `p.includes('url=')`. -/
def containsUrlKey (p : String) : Bool := charsHasUrlKey p.data

/-- String-level wrapper: `p.replace(/url=[^&]+/, 'url=' + su)`. -/
def replaceUrlParam (p su : String) : String := ⟨charsReplaceUrlParam su.data p.data⟩

/-! ### The indexing service (`indexVideo`) -/

/-- Result object of a completed `indexVideo` call: the transcript text and
the subtitled stream URL.  Either external call may deliver a null/empty
value; `none` stands for a null or undefined result. -/
structure IndexOutcome where
  transcript : Option String
  subtitleUrl : Option String
deriving DecidableEq, Repr

instance {ε α : Type} [DecidableEq ε] [DecidableEq α] : DecidableEq (Except ε α) := fun a b =>
  match a, b with
  | .ok x, .ok y =>
    if h : x = y then isTrue (congrArg _ h) else isFalse fun hh => h (Except.ok.inj hh)
  | .error x, .error y =>
    if h : x = y then isTrue (congrArg _ h) else isFalse fun hh => h (Except.error.inj hh)
  | .ok _, .error _ => isFalse fun hh => Except.noConfusion hh
  | .error _, .ok _ => isFalse fun hh => Except.noConfusion hh

/-- Oracle for the external VideoDB calls that `indexVideo` makes.  Each
field records whether the corresponding remote call throws, and what it
returns when it does not. -/
structure VideoEnv where
  /-- `connect`, `getCollection` or `getVideo` throws. -/
  connectThrows : Bool
  /-- `getVideo` resolved, and whether it found the video (a falsy result
  takes the explicit `return null` branch). -/
  videoFound : Bool
  /-- `indexSpokenWords` throws. -/
  indexSpokenThrows : Bool
  /-- `getTranscriptText` throws, or its result. -/
  transcriptResult : Except Unit (Option String)
  /-- `addSubtitle` throws, or its result. -/
  subtitleResult : Except Unit (Option String)
deriving DecidableEq, Repr

/-- Body of `indexVideo` before its `catch`: the sequence of external
calls, propagating the first exception. -/
def indexVideoBody (env : VideoEnv) : Except Unit (Option IndexOutcome) :=
  if env.connectThrows then .error ()
  else if !env.videoFound then .ok none
  else if env.indexSpokenThrows then .error ()
  else match env.transcriptResult with
    | .error e => .error e
    | .ok t =>
      match env.subtitleResult with
      | .error e => .error e
      | .ok s => .ok (some { transcript := t, subtitleUrl := s })

/-- Embedding of `indexVideo`: the whole body is wrapped in `try`/`catch`
and any error is converted into a `null` result. -/
def indexVideo (env : VideoEnv) : Option IndexOutcome :=
  match indexVideoBody env with
  | .ok r => r
  | .error _ => none

/-! ### The background indexing pipeline (`processIndexingBackground`) -/

/-- Observable step of one pipeline run: a successful `updateRecording`
call (with the map it wrote) or the `indexVideo` external call. -/
inductive Event where
  | write (u : UpdateMap)
  | externalCall
deriving DecidableEq, Repr

/-- Pipeline state: the store together with the trace of events performed
so far. -/
abbrev PState := Store × List Event

/-- Oracle for one pipeline run: the outcome of the external service and
whether each of the three `updateRecording` calls throws. -/
structure RunEnv where
  video : VideoEnv
  /-- The `insights_status: 'processing'` write throws. -/
  processingWriteThrows : Bool
  /-- The success (`ready`) or failure (`failed`) result write throws. -/
  resultWriteThrows : Bool
  /-- The `failed` write inside the `catch` block throws. -/
  failedWriteThrows : Bool
deriving DecidableEq, Repr

/-- The `{ insights_status: 'processing' }` update map. -/
def processingUpdate : UpdateMap := { insights_status := some "processing" }

/-- The `{ insights_status: 'failed' }` update map. -/
def failedUpdate : UpdateMap := { insights_status := some "failed" }

/-- JSON escaping for the characters relevant to `JSON.stringify` of a
transcript (quote, backslash and common control characters; other control
characters are rare enough that no claim depends on them). -/
def jsonEscapeChar (c : Char) : List Char :=
  if c = '"' then ['\\', '"']
  else if c = '\\' then ['\\', '\\']
  else if c = '\n' then ['\\', 'n']
  else if c = '\r' then ['\\', 'r']
  else if c = '\t' then ['\\', 't']
  else [c]

/-- Embedding of `JSON.stringify({ transcript: t })`. -/
def stringifyTranscript (t : String) : String :=
  "\x7b\"transcript\":\"" ++ ⟨t.data.flatMap jsonEscapeChar⟩ ++ "\"\x7d"

/-- New player URL computed on the success path: if the current row's
player URL is truthy and contains `url=`, substitute the parameter,
otherwise use the subtitle URL itself. -/
def newPlayerUrl (st : Store) (rid : Nat) (su : String) : String :=
  match getRecordingById st rid with
  | some recRow =>
    match recRow.player_url with
    | some p => if !p.data.isEmpty && containsUrlKey p then replaceUrlParam p su else su
    | none => su
  | none => su

/-- Update map assembled on the success path of the pipeline: status
`ready`, plus the transcript payload and the URL rewrites when the
corresponding results are truthy. -/
def readyUpdates (res : IndexOutcome) (st : Store) (rid : Nat) : UpdateMap :=
  { insights_status := some "ready"
    insights := match res.transcript with
      | some t => if t = "" then none else some (stringifyTranscript t)
      | none => none
    stream_url := match res.subtitleUrl with
      | some u => if u = "" then none else some u
      | none => none
    player_url := match res.subtitleUrl with
      | some u => if u = "" then none else some (newPlayerUrl st rid u)
      | none => none }

/-- One fallible `updateRecording` call inside the pipeline: on a throw the
exception carries the unchanged state, otherwise the store is updated and
the write is recorded in the trace. -/
def tryWrite (throws : Bool) (rid : Nat) (u : UpdateMap) (s : PState) : Except PState PState :=
  if throws then .error s
  else .ok (updateRecording s.1 rid u, s.2 ++ [Event.write u])

/-- Body of `processIndexingBackground` before its outer `catch`: write
`processing`, call `indexVideo`, then write either the success updates or
`failed`, propagating the first exception together with the state at the
point it was raised. -/
def pipelineBody (env : RunEnv) (rid : Nat) (s : PState) : Except PState PState :=
  match tryWrite env.processingWriteThrows rid processingUpdate s with
  | .error e => .error e
  | .ok s1 =>
    let s2 : PState := (s1.1, s1.2 ++ [Event.externalCall])
    match indexVideo env.video with
    | some res => tryWrite env.resultWriteThrows rid (readyUpdates res s2.1 rid) s2
    | none => tryWrite env.resultWriteThrows rid failedUpdate s2

/-- Embedding of `processIndexingBackground`: the body runs under a
`try`/`catch`; the handler writes `failed`, and a failure of that write is
itself caught and ignored.  A result of `.ok` means the run returned
normally; `.error` would mean an exception escaped to the caller. -/
def processIndexingBackground (env : RunEnv) (st : Store) (rid : Nat) : Except PState PState :=
  match pipelineBody env rid (st, []) with
  | .ok s => .ok s
  | .error s =>
    match tryWrite env.failedWriteThrows rid failedUpdate s with
    | .ok s2 => .ok s2
    | .error s2 => .ok s2

/-- Final state of a run, however it ended. -/
def runResult (env : RunEnv) (st : Store) (rid : Nat) : PState :=
  match processIndexingBackground env st rid with
  | .ok s => s
  | .error s => s

/-- Store after one pipeline run. -/
def runStore (env : RunEnv) (st : Store) (rid : Nat) : Store :=
  (runResult env st rid).1

/-- Event trace of one pipeline run. -/
def runTrace (env : RunEnv) (st : Store) (rid : Nat) : List Event :=
  (runResult env st rid).2

/-- Statuses written during a run, in order. -/
def statusWrites (tr : List Event) : List String :=
  tr.filterMap fun e => match e with
    | .write u => u.insights_status
    | .externalCall => none

/-- Number of external-service calls in a trace. -/
def countExternal (tr : List Event) : Nat :=
  (tr.filter fun e => match e with
    | .externalCall => true
    | _ => false).length

/-- Position of a status in the `pending → processing → {ready, failed}`
state machine; the two terminal statuses share the final rank. -/
def statusRank (s : String) : Nat :=
  if s = "pending" then 0 else if s = "processing" then 1 else 2

/-! ### The webhook handler (`createServer`, `POST /api/webhook`) -/

/-- The `data` object of a webhook body; each field may be absent. -/
structure WebhookData where
  exported_video_id : Option String := none
  stream_url : Option String := none
  player_url : Option String := none
deriving DecidableEq, Repr

/-- A parsed webhook body. -/
structure WebhookBody where
  event : Option String := none
  capture_session_id : Option String := none
  data : Option WebhookData := none
deriving DecidableEq, Repr

/-- HTTP response of the handler: the `{status: 'ok', received: true}`
acknowledgment, or the 500 sent by the surrounding `catch` (reachable only
through a store exception, which the model does not raise). -/
inductive Resp where
  | ok
  | serverError
deriving DecidableEq, Repr

/-- Which branch of the handler ran (distinguished in the source only by
log lines and by which store calls were made). -/
inductive HandlerOutcome where
  | ackEmptyBody
  | noVideoId
  | updated (id : Nat)
  | alreadyExists
  | created (id : Nat)
  | otherCaptureEvent
  | otherEvent
deriving DecidableEq, Repr

/-- Result of one webhook delivery: the HTTP response, the branch taken,
and the `(recording id, video id)` handed to `processIndexingBackground`
when background indexing was scheduled. -/
structure HandlerResult where
  response : Resp
  outcome : HandlerOutcome
  scheduled : Option (Nat × String)
deriving DecidableEq, Repr

/-- After the update or create path the handler re-reads the row by video
id and schedules background indexing when a latest user with a truthy API
key exists. -/
def scheduleAfterUpsert (st : Store) (v : String) : Option (Nat × String) :=
  match getLatestUser st, findRecordingByVideoId st v with
  | some u, some r => if isTruthy u.api_key then some (r.id, v) else none
  | _, _ => none

/-- Embedding of the `POST /api/webhook` handler.  `none` for the body
models a request whose parsed body is falsy.  The handler acknowledges
every delivery; for the `capture_session.exported` event it runs the
correlation algorithm: session lookup first, then video-id duplicate
check, then create. -/
def handleWebhook (st : Store) (body : Option WebhookBody) : Store × HandlerResult :=
  match body with
  | none => (st, { response := .ok, outcome := .ackEmptyBody, scheduled := none })
  | some b =>
    match b.event with
    | none => (st, { response := .ok, outcome := .ackEmptyBody, scheduled := none })
    | some ev =>
      if ev = "" then (st, { response := .ok, outcome := .ackEmptyBody, scheduled := none })
      else
        let data := b.data.getD {}
        if ev = "capture_session.exported" then
          match data.exported_video_id with
          | some v =>
            if v = "" then (st, { response := .ok, outcome := .noVideoId, scheduled := none })
            else
              match findRecordingBySessionId st b.capture_session_id with
              | some r =>
                let st2 := updateRecording st r.id
                  { video_id := some v
                    stream_url := data.stream_url
                    player_url := data.player_url
                    insights_status := some "pending" }
                (st2, { response := .ok, outcome := .updated r.id
                        scheduled := scheduleAfterUpsert st2 v })
              | none =>
                match findRecordingByVideoId st v with
                | some _ =>
                  (st, { response := .ok, outcome := .alreadyExists, scheduled := none })
                | none =>
                  let res := createRecording st
                    { video_id := some v
                      stream_url := data.stream_url
                      player_url := data.player_url
                      session_id := b.capture_session_id
                      insights_status := some "pending" }
                  (res.1, { response := .ok, outcome := .created res.2.id
                            scheduled := scheduleAfterUpsert res.1 v })
          | none => (st, { response := .ok, outcome := .noVideoId, scheduled := none })
        else if "capture_session.".data.isPrefixOf ev.data then
          (st, { response := .ok, outcome := .otherCaptureEvent, scheduled := none })
        else (st, { response := .ok, outcome := .otherEvent, scheduled := none })

/-- Convenience constructor for a `capture_session.exported` delivery. -/
def exportedBody (sess v su pu : Option String) : WebhookBody :=
  { event := some "capture_session.exported"
    capture_session_id := sess
    data := some { exported_video_id := v, stream_url := su, player_url := pu } }

/-! ### Concrete fixtures used by the witness theorems -/

/-- First delivery of the round-trip scenario from the specification. -/
def wBody1 : WebhookBody :=
  exportedBody (some "sess1") (some "v1") (some "s1") (some "p1?url=s1")

/-- Store after the first delivery: one recording, id 1, status `pending`. -/
def wStore1 : Store := (handleWebhook emptyStore (some wBody1)).1

/-- The row created by `wBody1`. -/
def wRow1 : Recording :=
  { id := 1, video_id := some "v1", stream_url := some "s1"
    player_url := some "p1?url=s1", session_id := some "sess1"
    duration := none, created_at := 0, insights := none, insights_status := "pending" }

/-- Delivery whose player URL carries no `url=` parameter. -/
def wBodyPlain : WebhookBody :=
  exportedBody (some "sessP") (some "vP") (some "sP") (some "pP")

/-- Store after `wBodyPlain` on an empty database. -/
def wStorePlain : Store := (handleWebhook emptyStore (some wBodyPlain)).1

/-- The row created by `wBodyPlain`. -/
def wRowPlain : Recording :=
  { id := 1, video_id := some "vP", stream_url := some "sP"
    player_url := some "pP", session_id := some "sessP"
    duration := none, created_at := 0, insights := none, insights_status := "pending" }

/-- External calls all succeed: transcript `hello`, subtitle URL `s2`. -/
def wVideoOk : VideoEnv :=
  { connectThrows := false, videoFound := true, indexSpokenThrows := false
    transcriptResult := .ok (some "hello"), subtitleResult := .ok (some "s2") }

/-- Pipeline run in which everything succeeds. -/
def wEnvOk : RunEnv :=
  { video := wVideoOk, processingWriteThrows := false
    resultWriteThrows := false, failedWriteThrows := false }

/-- External lookup fails: `getVideo` resolves but finds nothing. -/
def wVideoNotFound : VideoEnv :=
  { connectThrows := false, videoFound := false, indexSpokenThrows := false
    transcriptResult := .ok none, subtitleResult := .ok none }

/-- Pipeline run in which the video lookup fails and all writes succeed. -/
def wEnvFail : RunEnv :=
  { video := wVideoNotFound, processingWriteThrows := false
    resultWriteThrows := false, failedWriteThrows := false }

/-- The row of `wStore1` after a failed run: terminal `failed` status. -/
def wRowFail : Recording :=
  { id := 1, video_id := some "v1", stream_url := some "s1"
    player_url := some "p1?url=s1", session_id := some "sess1"
    duration := none, created_at := 0, insights := none, insights_status := "failed" }

/-- Update map touching only `stream_url` and `insights_status`, used to
exercise the partial-update frame property. -/
def wPartialUpdate : UpdateMap :=
  { stream_url := some "sX", insights_status := some "ready" }

/-- Input with every falsy value that `createRecording` coerces to `NULL`. -/
def wFalsyInput : RecordingInput :=
  { video_id := some "", stream_url := some "", player_url := some ""
    session_id := some "", duration := some 0 }

/-! ### General lemmas about the store operations -/

theorem applyUpdate_id (r : Recording) (u : UpdateMap) : (applyUpdate r u).id = r.id := rfl

theorem applyUpdate_empty (r : Recording) : applyUpdate r emptyUpdate = r := rfl

theorem updateRecording_rows (st : Store) (id : Nat) (u : UpdateMap)
    (h : u.insights_status ≠ none) :
    (updateRecording st id u).rows =
      st.rows.map fun r => if r.id = id then applyUpdate r u else r := by
  have hne : u ≠ emptyUpdate := by
    intro he; exact h (by rw [he]; rfl)
  simp [updateRecording, hne]

theorem updated_row_status (st : Store) (id : Nat) (u : UpdateMap) (s : String)
    (hs : u.insights_status = some s) :
    ∀ y ∈ (updateRecording st id u).rows, y.id = id → y.insights_status = s := by
  intro y hy hid
  rw [updateRecording_rows st id u (by rw [hs]; exact fun h => Option.noConfusion h)] at hy
  rcases List.mem_map.1 hy with ⟨x, hx, hfx⟩
  by_cases hxid : x.id = id
  · rw [if_pos hxid] at hfx
    rw [← hfx]
    simp [applyUpdate, hs]
  · rw [if_neg hxid] at hfx
    rw [← hfx] at hid
    exact absurd hid hxid

theorem getRecordingById_update (st : Store) (id : Nat) (u : UpdateMap) :
    getRecordingById (updateRecording st id u) id =
      (getRecordingById st id).map fun r => applyUpdate r u := by
  by_cases he : u = emptyUpdate
  · subst he
    simp only [updateRecording, if_pos rfl]
    cases h : getRecordingById st id <;> simp [h, applyUpdate_empty]
  · simp only [updateRecording, if_neg he, getRecordingById]
    induction st.rows with
    | nil => rfl
    | cons r rs ih =>
      simp only [List.map_cons, List.find?_cons]
      by_cases hr : r.id = id
      · have h1 : ((if r.id = id then applyUpdate r u else r).id == id) = true := by
          simp [hr, applyUpdate_id]
        have h2 : (r.id == id) = true := by simp [hr]
        rw [h1, h2]
        simp [hr]
      · have h1 : ((if r.id = id then applyUpdate r u else r).id == id) = false := by
          simp [hr, applyUpdate_id]
        have h2 : (r.id == id) = false := by simp [hr]
        rw [h1, h2]
        exact ih

theorem mem_update_pending (st : Store) (id : Nat) (u : UpdateMap)
    (hs : u.insights_status = some "pending") :
    ∀ y ∈ (updateRecording st id u).rows, y ∈ st.rows ∨ y.insights_status = "pending" := by
  intro y hy
  rw [updateRecording_rows st id u (by rw [hs]; exact fun h => Option.noConfusion h)] at hy
  rcases List.mem_map.1 hy with ⟨x, hx, hfx⟩
  by_cases hxid : x.id = id
  · rw [if_pos hxid] at hfx
    right
    rw [← hfx]
    simp [applyUpdate, hs]
  · rw [if_neg hxid] at hfx
    exact Or.inl (hfx ▸ hx)

theorem mem_create_pending (st : Store) (d : RecordingInput)
    (hs : d.insights_status = some "pending") :
    ∀ y ∈ (createRecording st d).1.rows, y ∈ st.rows ∨ y.insights_status = "pending" := by
  intro y hy
  simp only [createRecording] at hy
  rcases List.mem_append.1 hy with h | h
  · exact Or.inl h
  · right
    rw [List.mem_singleton.1 h]
    simp [hs]

/-- Every row visible after a webhook delivery either predates it unchanged
or carries the `pending` status: the handler's only mutations are the
in-place reset (status `pending`) and the creation of a fresh `pending`
row. -/
theorem handler_rows_pending (st : Store) (b : Option WebhookBody) :
    ∀ y ∈ (handleWebhook st b).1.rows, y ∈ st.rows ∨ y.insights_status = "pending" := by
  intro y hy
  match b with
  | none => exact Or.inl (by simpa [handleWebhook] using hy)
  | some ⟨none, sess, d⟩ => exact Or.inl (by simpa [handleWebhook] using hy)
  | some ⟨some e, sess, d⟩ =>
    by_cases he : e = ""
    · exact Or.inl (by simpa [handleWebhook, he] using hy)
    by_cases hexp : e = "capture_session.exported"
    · subst hexp
      cases hvd : ((d.getD {} : WebhookData).exported_video_id) with
      | none => exact Or.inl (by simpa [handleWebhook, hvd] using hy)
      | some v =>
        by_cases hv : v = ""
        · exact Or.inl (by simpa [handleWebhook, hvd, hv] using hy)
        cases hsess : findRecordingBySessionId st sess with
        | some r =>
          simp only [handleWebhook, hvd, hsess] at hy
          rw [if_neg he] at hy
          simp only [if_true, reduceIte, hv] at hy
          exact mem_update_pending st r.id _ rfl y (by simpa [hv] using hy)
        | none =>
          cases hvid : findRecordingByVideoId st v with
          | some r2 => exact Or.inl (by simpa [handleWebhook, hvd, hv, hsess, hvid] using hy)
          | none =>
            simp only [handleWebhook, hvd, hsess, hvid] at hy
            rw [if_neg he] at hy
            simp only [if_true, reduceIte, hv] at hy
            exact mem_create_pending st _ rfl y (by simpa [hv] using hy)
    · simp only [handleWebhook] at hy
      rw [if_neg he, if_neg hexp] at hy
      split at hy <;> exact Or.inl hy

/-! ### General lemmas about the pipeline -/

/-- The pipeline's `try`/`catch` structure never lets an exception escape:
every run ends in `.ok`. -/
theorem processIndexingBackground_ok (env : RunEnv) (st : Store) (rid : Nat) :
    processIndexingBackground env st rid = .ok (runResult env st rid) := by
  cases hb : pipelineBody env rid (st, []) with
  | ok s => simp [runResult, processIndexingBackground, hb]
  | error s =>
    cases ht : tryWrite env.failedWriteThrows rid failedUpdate s with
    | ok s2 => simp [runResult, processIndexingBackground, hb, ht]
    | error s2 => simp [runResult, processIndexingBackground, hb, ht]

/-- Status writes of one run never include `pending` and are strictly
increasing in the state machine's order. -/
theorem enrichment_monotone_part (env : RunEnv) (st : Store) (rid : Nat) :
    "pending" ∉ statusWrites (runTrace env st rid) ∧
    (statusWrites (runTrace env st rid)).Chain' fun a b => statusRank a < statusRank b := by
  obtain ⟨venv, p, rw_, fw⟩ := env
  cases p <;> cases rw_ <;> cases fw <;> cases hiv : indexVideo venv <;>
    simp [runTrace, runResult, processIndexingBackground, pipelineBody, tryWrite, hiv,
      statusWrites, processingUpdate, failedUpdate, readyUpdates, statusRank]

/-! ### General lemmas about the url parameter rewrite -/

theorem dropWhile_append_amp (s1 tail : List Char) (hamp : '&' ∉ s1)
    (htail : tail = [] ∨ ∃ t, tail = '&' :: t) :
    (s1 ++ tail).dropWhile (fun d => d != '&') = tail := by
  induction s1 with
  | nil =>
    rcases htail with h | ⟨t, h⟩ <;> subst h <;> simp [List.dropWhile]
  | cons c cs ih =>
    have hc : c ≠ '&' := by
      intro h
      exact hamp (by simp [h])
    rw [List.cons_append, List.dropWhile_cons]
    simp only [bne_iff_ne, ne_eq, hc, not_false_eq_true, if_true]
    exact ih fun h => hamp (List.mem_cons_of_mem _ h)

theorem urlMatchAt_append_false (c : Char) (p rest : List Char)
    (hsw : startsWithUrlKey (c :: p) = false) :
    urlMatchAt (c :: (p ++ 'u' :: 'r' :: 'l' :: '=' :: rest)) = false := by
  rcases p with _ | ⟨p1, _ | ⟨p2, _ | ⟨p3, p4⟩⟩⟩
  · simp [urlMatchAt]
  · simp [urlMatchAt]
  · simp [urlMatchAt]
  · have hsw2 : (c == 'u' && p1 == 'r' && p2 == 'l' && p3 == '=') = false := by
      simpa [startsWithUrlKey] using hsw
    cases p4 with
    | nil => simp [urlMatchAt, hsw2]
    | cons q p5 => simp [urlMatchAt, hsw2]

/-- First-match behaviour of the rewrite: with no `url=` occurrence inside
the prefix `p`, a non-empty `&`-free parameter value `s1`, and a tail that
is empty or starts at the next `&`, exactly the parameter value is
replaced. -/
theorem charsReplaceUrlParam_append (su p s1 tail : List Char)
    (hp : charsHasUrlKey p = false) (hs1 : s1 ≠ []) (hamp : '&' ∉ s1)
    (htail : tail = [] ∨ ∃ t, tail = '&' :: t) :
    charsReplaceUrlParam su (p ++ 'u' :: 'r' :: 'l' :: '=' :: (s1 ++ tail)) =
      p ++ 'u' :: 'r' :: 'l' :: '=' :: (su ++ tail) := by
  induction p with
  | nil =>
    obtain ⟨a, s1', rfl⟩ : ∃ a s1', s1 = a :: s1' := by
      cases s1 with
      | nil => exact absurd rfl hs1
      | cons a s1' => exact ⟨a, s1', rfl⟩
    have ha : a ≠ '&' := fun h => hamp (by simp [h])
    have hmatch : urlMatchAt ('u' :: 'r' :: 'l' :: '=' :: (a :: s1' ++ tail)) = true := by
      simp [urlMatchAt, bne_iff_ne, ha]
    rw [List.nil_append, charsReplaceUrlParam, if_pos hmatch]
    simp only [List.nil_append, List.drop_succ_cons, List.drop_zero]
    rw [dropWhile_append_amp (a :: s1') tail hamp htail]
  | cons c p' ih =>
    rw [charsHasUrlKey, Bool.or_eq_false_iff] at hp
    have hm : urlMatchAt (c :: (p' ++ 'u' :: 'r' :: 'l' :: '=' :: (s1 ++ tail))) = false :=
      urlMatchAt_append_false c p' _ hp.1
    rw [List.cons_append, charsReplaceUrlParam, if_neg (by rw [hm]; exact Bool.false_ne_true)]
    rw [ih hp.2]
    rfl

theorem charsHasUrlKey_append (p rest : List Char) :
    charsHasUrlKey (p ++ 'u' :: 'r' :: 'l' :: '=' :: rest) = true := by
  induction p with
  | nil => simp [charsHasUrlKey, startsWithUrlKey]
  | cons c p' ih => simp [charsHasUrlKey, ih]

/-! ### Claim theorems -/

/-- C1: for every pair of webhook deliveries carrying the same
`capture_session_id` (both with a `video_id` present), the second delivery
updates the existing Recording row in place — same local id, no second row
created — setting `video_id`, `stream_url`, `player_url` and resetting the
enrichment status to `pending`.  The first delivery is summarised by the
hypothesis that a row for that session already exists. -/
theorem claim_C1_second_delivery_updates_in_place
    (st : Store) (sess v su pu : String) (r : Recording) (hne : v ≠ "")
    (hfound : findRecordingBySessionId st (some sess) = some r) :
    (handleWebhook st
        (some (exportedBody (some sess) (some v) (some su) (some pu)))).1.rows.length
      = st.rows.length ∧
    (handleWebhook st
        (some (exportedBody (some sess) (some v) (some su) (some pu)))).1.rows
      = (st.rows.map fun x => if x.id = r.id then
          { x with video_id := some v, stream_url := some su, player_url := some pu,
                   insights_status := "pending" } else x) ∧
    (handleWebhook st
        (some (exportedBody (some sess) (some v) (some su) (some pu)))).2.response = .ok ∧
    (handleWebhook st
        (some (exportedBody (some sess) (some v) (some su) (some pu)))).2.outcome
      = .updated r.id := by
  have hrows : (handleWebhook st
      (some (exportedBody (some sess) (some v) (some su) (some pu)))).1.rows
      = (st.rows.map fun x => if x.id = r.id then
          { x with video_id := some v, stream_url := some su, player_url := some pu,
                   insights_status := "pending" } else x) := by
    have h1 : (handleWebhook st
        (some (exportedBody (some sess) (some v) (some su) (some pu)))).1
        = updateRecording st r.id
          { video_id := some v, stream_url := some su, player_url := some pu,
            insights_status := some "pending" } := by
      simp [handleWebhook, exportedBody, hne, hfound]
    rw [h1, updateRecording_rows _ _ _ (by simp)]
    rfl
  refine ⟨by rw [hrows]; simp, hrows, ?_, ?_⟩
  · simp [handleWebhook, exportedBody, hne, hfound]
  · simp [handleWebhook, exportedBody, hne, hfound]

/-- Witness for C1: the concrete two-delivery scenario — `wStore1` is the
store after the first delivery for session `sess1`; the second delivery
carries a different video id `v2`. -/
theorem claim_C1_witness :
    "v2" ≠ "" ∧
    findRecordingBySessionId wStore1 (some "sess1") = some wRow1 ∧
    ((handleWebhook wStore1
        (some (exportedBody (some "sess1") (some "v2") (some "s9") (some "p9")))).1.rows.length
      = wStore1.rows.length ∧
    (handleWebhook wStore1
        (some (exportedBody (some "sess1") (some "v2") (some "s9") (some "p9")))).1.rows
      = (wStore1.rows.map fun x => if x.id = wRow1.id then
          { x with video_id := some "v2", stream_url := some "s9", player_url := some "p9",
                   insights_status := "pending" } else x) ∧
    (handleWebhook wStore1
        (some (exportedBody (some "sess1") (some "v2") (some "s9") (some "p9")))).2.response
      = .ok ∧
    (handleWebhook wStore1
        (some (exportedBody (some "sess1") (some "v2") (some "s9") (some "p9")))).2.outcome
      = .updated wRow1.id) :=
  ⟨by decide, by decide,
    claim_C1_second_delivery_updates_in_place wStore1 "sess1" "v2" "s9" "p9" wRow1
      (by decide) (by decide)⟩

/-- C2: for every webhook delivery whose `video_id` already exists on a
Recording row while no row matches its `capture_session_id`, the handler
creates no second row, modifies no existing row (the store is returned
unchanged), and acknowledges the delivery as "already exists" with the ok
response rather than an error. -/
theorem claim_C2_duplicate_video_acknowledged
    (st : Store) (sess : Option String) (d : WebhookData) (v : String) (e : Recording)
    (hv : d.exported_video_id = some v) (hne : v ≠ "")
    (hsess : findRecordingBySessionId st sess = none)
    (hvid : findRecordingByVideoId st v = some e) :
    handleWebhook st (some { event := some "capture_session.exported",
                             capture_session_id := sess, data := some d }) =
      (st, { response := .ok, outcome := .alreadyExists, scheduled := none }) := by
  simp [handleWebhook, hv, hne, hsess, hvid]

/-- Witness for C2: a delivery for a fresh session `sessB` carrying the
already-stored video id `v1`. -/
theorem claim_C2_witness :
    ({ exported_video_id := some "v1", stream_url := some "sx",
       player_url := some "px" } : WebhookData).exported_video_id = some "v1" ∧
    "v1" ≠ "" ∧
    findRecordingBySessionId wStore1 (some "sessB") = none ∧
    findRecordingByVideoId wStore1 "v1" = some wRow1 ∧
    handleWebhook wStore1 (some { event := some "capture_session.exported",
                                  capture_session_id := some "sessB",
                                  data := some { exported_video_id := some "v1",
                                                 stream_url := some "sx",
                                                 player_url := some "px" } }) =
      (wStore1, { response := .ok, outcome := .alreadyExists, scheduled := none }) :=
  ⟨rfl, by decide, by decide, by decide,
    claim_C2_duplicate_video_acknowledged wStore1 (some "sessB")
      { exported_video_id := some "v1", stream_url := some "sx", player_url := some "px" }
      "v1" wRow1 rfl (by decide) (by decide) (by decide)⟩

/-- C7: for every webhook delivery of the exported event whose
`exported_video_id` is absent, no Recording row is created or modified
(the store is returned unchanged), and the delivery is still acknowledged
with the ok response rather than an error. -/
theorem claim_C7_missing_video_id_acknowledged_noop
    (st : Store) (b : WebhookBody)
    (hev : b.event = some "capture_session.exported")
    (hvd : (b.data.getD {}).exported_video_id = none) :
    handleWebhook st (some b) =
      (st, { response := .ok, outcome := .noVideoId, scheduled := none }) := by
  obtain ⟨ev, sess, d⟩ := b
  simp only [WebhookBody.event] at hev
  subst hev
  simp only [WebhookBody.data] at hvd
  simp [handleWebhook, hvd]

/-- Witness for C7: an exported event with a session id but no
`exported_video_id` field at all, delivered against a non-empty store. -/
theorem claim_C7_witness :
    (({ event := some "capture_session.exported", capture_session_id := some "sessX",
        data := none } : WebhookBody).data.getD {}).exported_video_id = none ∧
    handleWebhook wStore1 (some { event := some "capture_session.exported",
                                  capture_session_id := some "sessX", data := none }) =
      (wStore1, { response := .ok, outcome := .noVideoId, scheduled := none }) :=
  ⟨rfl, claim_C7_missing_video_id_acknowledged_noop wStore1
    { event := some "capture_session.exported", capture_session_id := some "sessX",
      data := none } rfl rfl⟩

/-- C3: within one enrichment run the status moves only forward along
`pending → processing → {ready, failed}`: a run never writes `pending`,
its status writes are strictly increasing in the state machine's order
(so nothing follows a terminal status), and the only way any webhook
processing ever changes a row is by resetting it to `pending` — every row
visible after a delivery is either an unchanged pre-existing row or
carries status `pending`. -/
theorem claim_C3_status_monotone_within_run :
    (∀ env st rid,
      "pending" ∉ statusWrites (runTrace env st rid) ∧
      (statusWrites (runTrace env st rid)).Chain' fun a b => statusRank a < statusRank b) ∧
    (∀ st b, ∀ y ∈ (handleWebhook st b).1.rows, y ∈ st.rows ∨ y.insights_status = "pending") :=
  ⟨fun env st rid => enrichment_monotone_part env st rid,
   fun st b => handler_rows_pending st b⟩

/-- Witness for C3: a fully successful run on the concrete store, and the
row created by the concrete delivery. -/
theorem claim_C3_witness :
    ("pending" ∉ statusWrites (runTrace wEnvOk wStore1 1) ∧
      (statusWrites (runTrace wEnvOk wStore1 1)).Chain'
        fun a b => statusRank a < statusRank b) ∧
    (wRow1 ∈ emptyStore.rows ∨ wRow1.insights_status = "pending") :=
  ⟨claim_C3_status_monotone_within_run.1 wEnvOk wStore1 1,
   claim_C3_status_monotone_within_run.2 emptyStore (some wBody1) wRow1 (by decide)⟩

/-- C5: for every enrichment run in which the external video lookup fails
or any external-service step raises an error (`indexVideo` then yields its
null result), the run returns normally (`.ok`, never an escaped
exception), makes exactly one external call (no retry), writes no status
other than `processing` and `failed`, and — unless both the result write
and the catch-block write throw — leaves the row with terminal status
`failed`. -/
theorem claim_C5_failure_handling (env : RunEnv) (st : Store) (rid : Nat)
    (hp : env.processingWriteThrows = false)
    (hfail : indexVideo env.video = none) :
    processIndexingBackground env st rid = .ok (runResult env st rid) ∧
    countExternal (runTrace env st rid) = 1 ∧
    statusWrites (runTrace env st rid) ⊆ ["processing", "failed"] ∧
    ((env.resultWriteThrows = false ∨ env.failedWriteThrows = false) →
      ∀ y ∈ (runStore env st rid).rows, y.id = rid → y.insights_status = "failed") := by
  obtain ⟨venv, p, rw_, fw⟩ := env
  subst hp
  refine ⟨processIndexingBackground_ok _ st rid, ?_, ?_, ?_⟩
  · cases rw_ <;> cases fw <;>
      simp [runTrace, runResult, processIndexingBackground, pipelineBody, tryWrite, hfail,
        countExternal]
  · cases rw_ <;> cases fw <;>
      simp [runTrace, runResult, processIndexingBackground, pipelineBody, tryWrite, hfail,
        statusWrites, processingUpdate, failedUpdate]
  · intro hor y hy hid
    have hstore : runStore ⟨venv, false, rw_, fw⟩ st rid =
        updateRecording (updateRecording st rid processingUpdate) rid failedUpdate := by
      rcases rw_ with _ | _
      · simp [runStore, runResult, processIndexingBackground, pipelineBody, tryWrite, hfail]
      · rcases fw with _ | _
        · simp [runStore, runResult, processIndexingBackground, pipelineBody, tryWrite, hfail]
        · rcases hor with h | h <;> simp at h
    rw [hstore] at hy
    exact updated_row_status _ rid failedUpdate "failed" rfl y hy hid

/-- Witness for C5: the lookup-failure environment run against the
concrete store; the surviving row carries status `failed`. -/
theorem claim_C5_witness :
    processIndexingBackground wEnvFail wStore1 1 = .ok (runResult wEnvFail wStore1 1) ∧
    countExternal (runTrace wEnvFail wStore1 1) = 1 ∧
    statusWrites (runTrace wEnvFail wStore1 1) ⊆ ["processing", "failed"] ∧
    wRowFail.insights_status = "failed" := by
  have h := claim_C5_failure_handling wEnvFail wStore1 1 rfl (by decide)
  exact ⟨h.1, h.2.1, h.2.2.1, h.2.2.2 (Or.inl rfl) wRowFail (by decide) rfl⟩

/-- C6: in every enrichment run, the write of status `processing` happens
before the first (and only) call to the external service: whenever the
trace contains an external call at all, the trace begins with the
`processing` write immediately followed by that call. -/
theorem claim_C6_processing_before_external (env : RunEnv) (st : Store) (rid : Nat)
    (h : Event.externalCall ∈ runTrace env st rid) :
    (runTrace env st rid).take 2 = [Event.write processingUpdate, Event.externalCall] := by
  obtain ⟨venv, p, rw_, fw⟩ := env
  cases p <;> cases rw_ <;> cases fw <;> cases hiv : indexVideo venv <;>
    simp_all [runTrace, runResult, processIndexingBackground, pipelineBody, tryWrite, hiv]

/-- Witness for C6: the successful concrete run contains an external call,
and its trace begins with the `processing` write followed by it. -/
theorem claim_C6_witness :
    Event.externalCall ∈ runTrace wEnvOk wStore1 1 ∧
    (runTrace wEnvOk wStore1 1).take 2 =
      [Event.write processingUpdate, Event.externalCall] :=
  ⟨by decide, claim_C6_processing_before_external wEnvOk wStore1 1 (by decide)⟩

/-- C4: round-trip of the player-URL rewrite on enrichment success.  For a
row whose stored player URL is a prefix free of `url=` followed by
`url=<value>` and optionally further `&`-separated parameters, a
successful run with subtitle URL `s2` substitutes exactly the `url=`
parameter value and preserves everything else; and for every row whose
player URL does not contain `url=` (or is `NULL`), the stored player URL
becomes exactly the subtitle URL.  (Dollar escape sequences of a
JavaScript replacement string are outside the model, hence the `$`
hypothesis.) -/
theorem claim_C4_player_url_rewrite (env : RunEnv) (st : Store) (rid : Nat)
    (recRow : Recording) (tsc : Option String) (s2 : String)
    (hp : env.processingWriteThrows = false)
    (hr : env.resultWriteThrows = false)
    (hiv : indexVideo env.video = some { transcript := tsc, subtitleUrl := some s2 })
    (hs2 : s2 ≠ "")
    (hdollar : '$' ∉ s2.data)
    (hrow : getRecordingById st rid = some recRow) :
    (∀ p s1 tail, recRow.player_url = some ⟨p ++ 'u' :: 'r' :: 'l' :: '=' :: (s1 ++ tail)⟩ →
        charsHasUrlKey p = false → s1 ≠ [] → '&' ∉ s1 →
        (tail = [] ∨ ∃ t, tail = '&' :: t) →
        (getRecordingById (runStore env st rid) rid).map Recording.player_url =
          some (some ⟨p ++ 'u' :: 'r' :: 'l' :: '=' :: (s2.data ++ tail)⟩)) ∧
      ((recRow.player_url = none ∨
          ∃ q, recRow.player_url = some q ∧ containsUrlKey q = false) →
        (getRecordingById (runStore env st rid) rid).map Recording.player_url =
          some (some s2)) := by
  obtain ⟨venv, pwt, rwt, fwt⟩ := env
  subst hp
  subst hr
  set st1 := updateRecording st rid processingUpdate with hst1
  have hstore : runStore ⟨venv, false, false, fwt⟩ st rid =
      updateRecording st1 rid
        (readyUpdates { transcript := tsc, subtitleUrl := some s2 } st1 rid) := by
    simp [runStore, runResult, processIndexingBackground, pipelineBody, tryWrite, hiv, hst1]
  have hrow1 : getRecordingById st1 rid = some (applyUpdate recRow processingUpdate) := by
    rw [hst1, getRecordingById_update, hrow]
    rfl
  have hpl1 : (applyUpdate recRow processingUpdate).player_url = recRow.player_url := rfl
  have hfinal : (getRecordingById (runStore ⟨venv, false, false, fwt⟩ st rid) rid).map
      Recording.player_url = some (some (newPlayerUrl st1 rid s2)) := by
    rw [hstore, getRecordingById_update, hrow1]
    simp only [Option.map_some']
    have hfld : (applyUpdate (applyUpdate recRow processingUpdate)
        (readyUpdates { transcript := tsc, subtitleUrl := some s2 } st1 rid)).player_url =
        some (newPlayerUrl st1 rid s2) := by
      simp [applyUpdate, readyUpdates, hs2]
    rw [hfld]
  constructor
  · intro p s1 tail hpl hkey hs1 hamp htail
    rw [hfinal]
    have hnp : newPlayerUrl st1 rid s2 =
        ⟨p ++ 'u' :: 'r' :: 'l' :: '=' :: (s2.data ++ tail)⟩ := by
      rw [newPlayerUrl, hrow1]
      simp only [hpl1, hpl]
      have hemp : (p ++ 'u' :: 'r' :: 'l' :: '=' :: (s1 ++ tail)).isEmpty = false := by
        cases p <;> rfl
      have hkey2 : charsHasUrlKey (p ++ 'u' :: 'r' :: 'l' :: '=' :: (s1 ++ tail)) = true :=
        charsHasUrlKey_append p _
      dsimp only [containsUrlKey]
      rw [hemp, hkey2]
      simp only [Bool.not_false, Bool.true_and, reduceIte]
      dsimp only [replaceUrlParam]
      exact congrArg String.mk (charsReplaceUrlParam_append s2.data p s1 tail hkey hs1 hamp htail)
    rw [hnp]
  · intro hcase
    rw [hfinal]
    have hnp : newPlayerUrl st1 rid s2 = s2 := by
      rw [newPlayerUrl, hrow1]
      rcases hcase with h | ⟨q, hq, hkey⟩
      · simp [hpl1, h]
      · simp [hpl1, hq, hkey]
    rw [hnp]

/-- Witness for C4: the specification's concrete round-trip — a row created
with player URL `p1?url=s1` ends with `p1?url=s2` after a successful run
delivering subtitle URL `s2`, and a row whose player URL `pP` carries no
`url=` parameter ends with exactly `s2`. -/
theorem claim_C4_witness :
    getRecordingById wStore1 1 = some wRow1 ∧
    (getRecordingById (runStore wEnvOk wStore1 1) 1).map Recording.player_url =
      some (some ⟨"p1?".data ++ 'u' :: 'r' :: 'l' :: '=' :: ("s2".data ++ [])⟩) ∧
    getRecordingById wStorePlain 1 = some wRowPlain ∧
    (getRecordingById (runStore wEnvOk wStorePlain 1) 1).map Recording.player_url =
      some (some "s2") := by
  refine ⟨by decide, ?_, by decide, ?_⟩
  · exact (claim_C4_player_url_rewrite wEnvOk wStore1 1 wRow1 (some "hello") "s2" rfl rfl
      (by decide) (by decide) (by decide) (by decide)).1 "p1?".data "s1".data []
      (by decide) (by decide) (by decide) (by decide) (Or.inl rfl)
  · exact (claim_C4_player_url_rewrite wEnvOk wStorePlain 1 wRowPlain (some "hello") "s2" rfl rfl
      (by decide) (by decide) (by decide) (by decide)).2
      (Or.inr ⟨"pP", rfl, by decide⟩)

/-- C8: a partial-field update changes exactly the fields present in the
update map — every absent field keeps its previous value (and `id`,
`session_id`, `duration`, `created_at` are never touched) — and at the
store level rows with a different id are untouched while the targeted row
is rewritten by the map. -/
theorem claim_C8_partial_update_frame (r : Recording) (u : UpdateMap) (st : Store) (id : Nat) :
    (applyUpdate r u).id = r.id ∧
    (applyUpdate r u).session_id = r.session_id ∧
    (applyUpdate r u).duration = r.duration ∧
    (applyUpdate r u).created_at = r.created_at ∧
    (u.video_id = none → (applyUpdate r u).video_id = r.video_id) ∧
    (∀ v, u.video_id = some v → (applyUpdate r u).video_id = some v) ∧
    (u.stream_url = none → (applyUpdate r u).stream_url = r.stream_url) ∧
    (∀ v, u.stream_url = some v → (applyUpdate r u).stream_url = some v) ∧
    (u.player_url = none → (applyUpdate r u).player_url = r.player_url) ∧
    (∀ v, u.player_url = some v → (applyUpdate r u).player_url = some v) ∧
    (u.insights = none → (applyUpdate r u).insights = r.insights) ∧
    (∀ v, u.insights = some v → (applyUpdate r u).insights = some v) ∧
    (u.insights_status = none → (applyUpdate r u).insights_status = r.insights_status) ∧
    (∀ v, u.insights_status = some v → (applyUpdate r u).insights_status = v) ∧
    (∀ x ∈ st.rows, x.id ≠ id → x ∈ (updateRecording st id u).rows) ∧
    (∀ x ∈ st.rows, x.id = id → applyUpdate x u ∈ (updateRecording st id u).rows) := by
  refine ⟨rfl, rfl, rfl, rfl, ?_, ?_, ?_, ?_, ?_, ?_, ?_, ?_, ?_, ?_, ?_, ?_⟩
  · intro h; simp [applyUpdate, h]
  · intro v h; simp [applyUpdate, h]
  · intro h; simp [applyUpdate, h]
  · intro v h; simp [applyUpdate, h]
  · intro h; simp [applyUpdate, h]
  · intro v h; simp [applyUpdate, h]
  · intro h; simp [applyUpdate, h]
  · intro v h; simp [applyUpdate, h]
  · intro h; simp [applyUpdate, h]
  · intro v h; simp [applyUpdate, h]
  · intro x hx hne
    by_cases he : u = emptyUpdate
    · simp [updateRecording, he, hx]
    · simp only [updateRecording, if_neg he]
      have hmem : (if x.id = id then applyUpdate x u else x) ∈
          st.rows.map fun r => if r.id = id then applyUpdate r u else r :=
        List.mem_map_of_mem _ hx
      simpa [if_neg hne] using hmem
  · intro x hx heq
    by_cases he : u = emptyUpdate
    · subst he; simpa [updateRecording, applyUpdate_empty] using hx
    · simp only [updateRecording, if_neg he]
      have hmem : (if x.id = id then applyUpdate x u else x) ∈
          st.rows.map fun r => if r.id = id then applyUpdate r u else r :=
        List.mem_map_of_mem _ hx
      simpa [if_pos heq] using hmem

/-- Witness for C8: applying an update that carries only `stream_url` and
`insights_status` to the concrete row changes exactly those two fields. -/
theorem claim_C8_witness :
    (applyUpdate wRow1 wPartialUpdate).id = wRow1.id ∧
    (applyUpdate wRow1 wPartialUpdate).video_id = wRow1.video_id ∧
    (applyUpdate wRow1 wPartialUpdate).player_url = wRow1.player_url ∧
    (applyUpdate wRow1 wPartialUpdate).insights = wRow1.insights ∧
    (applyUpdate wRow1 wPartialUpdate).stream_url = some "sX" ∧
    (applyUpdate wRow1 wPartialUpdate).insights_status = "ready" ∧
    applyUpdate wRow1 wPartialUpdate ∈ (updateRecording wStore1 1 wPartialUpdate).rows := by
  obtain ⟨h1, h2, h3, h4, h5, h6, h7, h8, h9, h10, h11, h12, h13, h14, h15, h16⟩ :=
    claim_C8_partial_update_frame wRow1 wPartialUpdate wStore1 1
  exact ⟨h1, h5 rfl, h9 rfl, h11 rfl, h8 "sX" rfl, h14 "ready" rfl, h16 wRow1 (by decide) rfl⟩

/-- C9: for every requested limit `n`, the history listing returns at most
`n` rows, ordered most-recent-first by creation timestamp, and every
returned row is a row of the store. -/
theorem claim_C9_listing_bounded_sorted (st : Store) (limit : Nat) :
    (getRecordings st limit).length ≤ limit ∧
    List.Sorted newestFirst (getRecordings st limit) ∧
    ∀ y ∈ getRecordings st limit, y ∈ st.rows := by
  refine ⟨?_, ?_, ?_⟩
  · simp [getRecordings]
  · exact List.Pairwise.sublist (List.take_sublist _ _)
      (List.sorted_insertionSort newestFirst st.rows)
  · intro y hy
    exact (List.mem_insertionSort newestFirst).1 (List.take_subset _ _ hy)

/-- Witness for C9: the concrete store listed with limit 5. -/
theorem claim_C9_witness :
    (getRecordings wStore1 5).length ≤ 5 ∧
    List.Sorted newestFirst (getRecordings wStore1 5) ∧
    wRow1 ∈ wStore1.rows := by
  have h := claim_C9_listing_bounded_sorted wStore1 5
  exact ⟨h.1, h.2.1, h.2.2 wRow1 (by decide)⟩

/-- C10: `createRecording` coerces every falsy field value to `NULL` —
empty-string `video_id`, `stream_url`, `player_url`, `session_id` and a
duration of `0` are stored as `NULL` — a missing `insights_status`
defaults to `pending`, and consequently a webhook delivery carrying
empty-string URLs produces a row with `NULL` in those columns. -/
theorem claim_C10_create_coerces_falsy (st : Store) (d : RecordingInput) :
    (createRecording st d).1.rows = st.rows ++ [(createRecording st d).2] ∧
    (d.video_id = some "" → (createRecording st d).2.video_id = none) ∧
    (d.stream_url = some "" → (createRecording st d).2.stream_url = none) ∧
    (d.player_url = some "" → (createRecording st d).2.player_url = none) ∧
    (d.session_id = some "" → (createRecording st d).2.session_id = none) ∧
    (d.duration = some 0 → (createRecording st d).2.duration = none) ∧
    (d.insights_status = none → (createRecording st d).2.insights_status = "pending") ∧
    (∀ st2 sess v, v ≠ "" →
      findRecordingBySessionId st2 sess = none →
      findRecordingByVideoId st2 v = none →
      ∀ y ∈ (handleWebhook st2 (some (exportedBody sess (some v) (some "") (some "")))).1.rows,
        y ∉ st2.rows → y.stream_url = none ∧ y.player_url = none) := by
  refine ⟨rfl, ?_, ?_, ?_, ?_, ?_, ?_, ?_⟩
  · intro h; simp [createRecording, orNullStr, h]
  · intro h; simp [createRecording, orNullStr, h]
  · intro h; simp [createRecording, orNullStr, h]
  · intro h; simp [createRecording, orNullStr, h]
  · intro h; simp [createRecording, orNullInt, h]
  · intro h; simp [createRecording, h]
  · intro st2 sess v hv hsess hvid y hy hnotin
    have hrows : (handleWebhook st2
        (some (exportedBody sess (some v) (some "") (some "")))).1.rows =
        st2.rows ++ [(createRecording st2
          { video_id := some v, stream_url := some "", player_url := some "",
            session_id := sess, insights_status := some "pending" }).2] := by
      simp [handleWebhook, exportedBody, hv, hsess, hvid, createRecording]
    rw [hrows] at hy
    rcases List.mem_append.1 hy with h | h
    · exact absurd h hnotin
    · have hyr : y = (createRecording st2
          { video_id := some v, stream_url := some "", player_url := some "",
            session_id := sess, insights_status := some "pending" }).2 := by
        simpa using h
      subst hyr
      exact ⟨by simp [createRecording, orNullStr], by simp [createRecording, orNullStr]⟩

/-- Witness for C10: the all-falsy input, and a concrete delivery with
empty-string URLs whose created row stores `NULL` in both URL columns. -/
theorem claim_C10_witness :
    (createRecording emptyStore wFalsyInput).1.rows =
      emptyStore.rows ++ [(createRecording emptyStore wFalsyInput).2] ∧
    (createRecording emptyStore wFalsyInput).2.video_id = none ∧
    (createRecording emptyStore wFalsyInput).2.stream_url = none ∧
    (createRecording emptyStore wFalsyInput).2.player_url = none ∧
    (createRecording emptyStore wFalsyInput).2.session_id = none ∧
    (createRecording emptyStore wFalsyInput).2.duration = none ∧
    ({ id := 1, video_id := some "vZ", stream_url := none, player_url := none,
       session_id := some "sZ", duration := none, created_at := 0, insights := none,
       insights_status := "pending" } : Recording).stream_url = none ∧
    ({ id := 1, video_id := some "vZ", stream_url := none, player_url := none,
       session_id := some "sZ", duration := none, created_at := 0, insights := none,
       insights_status := "pending" } : Recording).player_url = none := by
  have h := claim_C10_create_coerces_falsy emptyStore wFalsyInput
  have h8 := h.2.2.2.2.2.2.2 emptyStore (some "sZ") "vZ" (by decide) (by decide) (by decide)
    { id := 1, video_id := some "vZ", stream_url := none, player_url := none,
      session_id := some "sZ", duration := none, created_at := 0, insights := none,
      insights_status := "pending" } (by decide) (by decide)
  exact ⟨h.1, h.2.1 rfl, h.2.2.1 rfl, h.2.2.2.1 rfl, h.2.2.2.2.1 rfl, h.2.2.2.2.2.1 rfl,
    h8.1, h8.2⟩

end AsyncRecorder
